import Mathlib

/-!
Verification of the Galaxy server excerpt: the RBAC association setters
(`GalaxyRBACAgent.set_*_associations`), the secrets-vault abstraction, the
visualization service (`VisualizationsService`), the quota-source-labels
schema migration, and the chat API endpoint.

Pure service logic present under `src/` (visualizations, chat, the migration
script) is embedded directly from the source.  The RBAC agent
(`galaxy/model/security.py`) and the vault backends
(`galaxy/security/vault.py`) are referenced by the excerpt's unit tests but
their implementation files are not part of the excerpt; those are modelled
from the spec, as marked on each definition.
-/

namespace GalaxySpec

/-! ## RBAC association management

Entities are identified by numeric database ids.  An `RBACState` carries the
sets of existing users / groups / roles, the set of role ids whose type is
`Role.types.PRIVATE`, and the three many-to-many association tables.
-/

inductive RBACError where
  | requestParameterInvalid
deriving DecidableEq, Repr

structure RBACState where
  userIds : List Nat
  groupIds : List Nat
  roleIds : List Nat
  /-- ids of roles whose type is PRIVATE -/
  privateRoleIds : List Nat
  /-- user_role_association rows: (user id, role id) -/
  userRoles : List (Nat × Nat)
  /-- user_group_association rows: (user id, group id) -/
  userGroups : List (Nat × Nat)
  /-- group_role_association rows: (group id, role id) -/
  groupRoles : List (Nat × Nat)
deriving DecidableEq, Repr

/-- true when no id occurs twice in the list. -/
def distinctIds : List Nat → Bool
  | [] => true
  | x :: xs => !(xs.contains x) && distinctIds xs

/-- Validation shared by all three setters: every supplied id must identify
an existing entity and no id may appear twice. -/
def validIdList (existing ids : List Nat) : Bool :=
  ids.all (fun i => existing.contains i) && distinctIds ids

/-- Modelled from the spec: `GalaxyRBACAgent.set_user_group_and_role_associations`
(`galaxy/model/security.py` is not part of the excerpt; only its unit tests
are).  Per the spec it replaces the user's group and role association sets
with the supplied id lists, rejecting the whole operation when any id is
invalid or duplicated, and never touching the user's association with a
PRIVATE role. -/
def set_user_group_and_role_associations (s : RBACState) (userId : Nat)
    (group_ids role_ids : List Nat) : Except RBACError RBACState :=
  if validIdList s.groupIds group_ids && validIdList s.roleIds role_ids then
    .ok { s with
      userGroups := s.userGroups.filter (fun p => p.1 != userId)
        ++ group_ids.map (fun g => (userId, g)),
      userRoles := s.userRoles.filter
          (fun p => p.1 != userId || s.privateRoleIds.contains p.2)
        ++ role_ids.map (fun r => (userId, r)) }
  else
    .error .requestParameterInvalid

/-- Modelled from the spec: `GalaxyRBACAgent.set_role_user_and_group_associations`
(`galaxy/model/security.py` is not part of the excerpt).  Replaces the
role's user and group association sets, with the same all-or-nothing
validation; associations of a PRIVATE role with its users are preserved
(the excerpt's test `test_private_user_role_assoc_not_affected_by_setting_role_users`
pins this behaviour down). -/
def set_role_user_and_group_associations (s : RBACState) (roleId : Nat)
    (user_ids group_ids : List Nat) : Except RBACError RBACState :=
  if validIdList s.userIds user_ids && validIdList s.groupIds group_ids then
    .ok { s with
      userRoles := s.userRoles.filter
          (fun p => p.2 != roleId || s.privateRoleIds.contains p.2)
        ++ user_ids.map (fun u => (u, roleId)),
      groupRoles := s.groupRoles.filter (fun p => p.2 != roleId)
        ++ group_ids.map (fun g => (g, roleId)) }
  else
    .error .requestParameterInvalid

/-- Modelled from the spec: `GalaxyRBACAgent.set_group_user_and_role_associations`
(`galaxy/model/security.py` is not part of the excerpt).  Replaces the
group's user and role association sets, with the same all-or-nothing
validation; no protected subset applies to a group anchor. -/
def set_group_user_and_role_associations (s : RBACState) (groupId : Nat)
    (user_ids role_ids : List Nat) : Except RBACError RBACState :=
  if validIdList s.userIds user_ids && validIdList s.roleIds role_ids then
    .ok { s with
      userGroups := s.userGroups.filter (fun p => p.2 != groupId)
        ++ user_ids.map (fun u => (u, groupId)),
      groupRoles := s.groupRoles.filter (fun p => p.1 != groupId)
        ++ role_ids.map (fun r => (groupId, r)) }
  else
    .error .requestParameterInvalid

/-- The database state after a call: the returned state on success, the
unchanged input state when the call raised (the exception aborts the
transaction before any mutation). -/
def postState (s : RBACState) (r : Except RBACError RBACState) : RBACState :=
  match r with
  | .ok s2 => s2
  | .error _ => s

/-! ## Secrets vault

Modelled from the spec: `galaxy/security/vault.py` is not part of the
excerpt; only its unit tests are.  The database-backed vault encrypts each
secret with the current primary Fernet key and retains rotated-out keys for
decrypting legacy ciphertext; a ciphertext whose key is in no configured key
raises `InvalidToken`, while a path never written reads as `None`.
-/

inductive VaultError where
  | invalidToken
deriving DecidableEq, Repr

structure DatabaseVault where
  /-- the key used to encrypt on write -/
  primaryKey : String
  /-- older keys retained after rotation, used only to decrypt -/
  rotatedKeys : List String
  /-- rows of the vault table: (path, key the ciphertext was produced under, plaintext) -/
  store : List (String × String × String)
deriving DecidableEq, Repr

/-- Modelled from the spec: `DatabaseVault.write_secret` upserts the row for
`path`, encrypting `value` under the primary key. -/
def write_secret (v : DatabaseVault) (path value : String) : DatabaseVault :=
  { v with store := (path, v.primaryKey, value) :: v.store.filter (fun e => e.1 != path) }

/-- Modelled from the spec: `DatabaseVault.read_secret` returns `none` when no
row exists for `path`; otherwise it decrypts the stored ciphertext, which
succeeds exactly when the key it was written under is among the currently
configured keys, and raises `InvalidToken` otherwise. -/
def read_secret (v : DatabaseVault) (path : String) : Except VaultError (Option String) :=
  match v.store.find? (fun e => e.1 == path) with
  | none => .ok none
  | some e =>
      if e.2.1 = v.primaryKey ∨ e.2.1 ∈ v.rotatedKeys then .ok (some e.2.2)
      else .error .invalidToken

/-- Reconfiguring the vault (loading a new vault over the same database)
changes the key set but keeps the stored rows. -/
def reconfigure (v : DatabaseVault) (newPrimary : String) (newRotated : List String) :
    DatabaseVault :=
  { primaryKey := newPrimary, rotatedKeys := newRotated, store := v.store }

/-- Modelled from the spec: the Hashicorp and Custos backends delegate to an
external key-value service; both expose the same read/write capability set,
modelled as a plain path-to-value store. -/
structure KVVault where
  store : List (String × String)
deriving DecidableEq, Repr

/-- Modelled from the spec: `write_secret` of an external-service backend. -/
def kv_write_secret (v : KVVault) (path value : String) : KVVault :=
  { store := (path, value) :: v.store.filter (fun e => e.1 != path) }

/-- Modelled from the spec: `read_secret` of an external-service backend. -/
def kv_read_secret (v : KVVault) (path : String) : Option String :=
  match v.store.find? (fun e => e.1 == path) with
  | none => none
  | some e => some e.2

/-! ## Visualizations service

Embedded from `src/lib/galaxy/webapps/galaxy/services/visualizations.py`.
A revision's `config` is a JSON dict, modelled as its insertion-ordered list
of entries, on which `json.dumps` is injective, so the source's
`json.dumps(config) != json.dumps(latest_config)` comparison is entry-list
inequality.  `sanitize_html` leaves the plain strings used here unchanged
and is dropped; payload fields absent from the request are `none`.
-/

structure VisualizationRevision where
  id : Nat
  title : String
  dbkey : String
  config : List (String × String)
deriving DecidableEq, Repr

structure Visualization where
  id : Nat
  userId : Nat
  title : String
  deleted : Bool
  importable : Bool
  latest_revision : VisualizationRevision
  revisions : List VisualizationRevision
deriving DecidableEq, Repr

structure VisualizationUpdatePayload where
  title : Option String
  dbkey : Option String
  config : Option (List (String × String))
  deleted : Option Bool
deriving DecidableEq, Repr

/-- Python `payload.field or fallback` for an optional string: an absent
field and the falsy empty string both fall back. -/
def orFalsyStr : Option String → String → String
  | some s, d => if s = "" then d else s
  | none, d => d

/-- Python `payload.config or fallback`: an absent config and the falsy
empty dict both fall back. -/
def orFalsyConfig : Option (List (String × String)) → List (String × String) →
    List (String × String)
  | some c, d => if c = [] then d else c
  | none, d => d

/-- The condition of the revision-creating branch of
`VisualizationsService.update` (visualizations.py lines 214-218): the
effective title, dbkey or config differs from the latest revision's. -/
def revisionNeeded (vis : Visualization) (payload : VisualizationUpdatePayload) : Prop :=
  orFalsyStr payload.title vis.latest_revision.title ≠ vis.latest_revision.title
    ∨ orFalsyStr payload.dbkey vis.latest_revision.dbkey ≠ vis.latest_revision.dbkey
    ∨ orFalsyConfig payload.config vis.latest_revision.config ≠ vis.latest_revision.config

instance (vis : Visualization) (payload : VisualizationUpdatePayload) :
    Decidable (revisionNeeded vis payload) := by
  unfold revisionNeeded; infer_instance

/-- Embeds `VisualizationsService.update` (visualizations.py lines 184-228) on an
owned visualization: computes the effective title / dbkey / deleted / config
with Python `or` fallbacks, creates a new revision (appended to `revisions`,
pointed to by `latest_revision`; `_add_visualization_revision`, lines
338-362) exactly when the effective title, dbkey or config differs from the
latest revision, updates the visualization's `title` and `deleted`, and
returns `some (visualization id, new revision id)` in the revision case and
`none` otherwise.  `newRevId` stands for the database-assigned id of the new
revision row. -/
def update (vis : Visualization) (payload : VisualizationUpdatePayload) (newRevId : Nat) :
    Visualization × Option (Nat × Nat) :=
  let lr := vis.latest_revision
  let title := orFalsyStr payload.title lr.title
  let dbkey := orFalsyStr payload.dbkey lr.dbkey
  let deleted := payload.deleted.getD false || vis.deleted
  let config := orFalsyConfig payload.config lr.config
  if title ≠ lr.title ∨ dbkey ≠ lr.dbkey ∨ config ≠ lr.config then
    let rev : VisualizationRevision := ⟨newRevId, title, dbkey, config⟩
    ({ vis with
        title := title
        deleted := deleted
        latest_revision := rev
        revisions := vis.revisions ++ [rev] },
      some (vis.id, newRevId))
  else
    ({ vis with title := title, deleted := deleted }, none)

inductive GalaxyError where
  | objectNotFound
  | itemAccessibility
  | itemDeletion
deriving DecidableEq, Repr

/-- Embeds `VisualizationsService._get_visualization` (visualizations.py lines
300-318): looks the id up in the session and raises `ObjectNotFound` when no
visualization with that id exists.  The subsequent `security_check` with
both checks disabled (as in the import path) returns the visualization
unchanged. -/
def get_visualization (db : List Visualization) (visualization_id : Nat) :
    Except GalaxyError Visualization :=
  match db.find? (fun v => v.id == visualization_id) with
  | none => .error .objectNotFound
  | some v => .ok v

/-- Embeds `Visualization.copy`: a fresh visualization owned by `userId` with the
title prefixed, as in `_import_visualization`. -/
def copy_visualization (vis : Visualization) (newId userId : Nat) : Visualization :=
  { vis with id := newId, userId := userId, title := "imported: " ++ vis.title }

/-- Embeds `VisualizationsService._import_visualization` (visualizations.py lines
412-445): raises `ItemAccessibilityException` for an anonymous caller,
looks the visualization up (`ObjectNotFound` when absent), raises
`ItemAccessibilityException` when it is not importable and
`ItemDeletionException` when it is deleted, and only then appends the
imported copy to the database.  `user` is the caller (`trans.user`),
`newId` the database-assigned id of the copy. -/
def import_visualization (db : List Visualization) (user : Option Nat)
    (visualization_id newId : Nat) : Except GalaxyError (List Visualization × Visualization) :=
  match user with
  | none => .error .itemAccessibility
  | some u =>
    match get_visualization db visualization_id with
    | .error e => .error e
    | .ok vis =>
      if !vis.importable then .error .itemAccessibility
      else if vis.deleted then .error .itemDeletion
      else
        let imported := copy_visualization vis newId u
        .ok (db ++ [imported], imported)

/-! ## Quota-source-labels migration

The migration script
`d0583094c8cd_add_quota_source_labels.py` is embedded from the source; the
DDL helpers it imports from `galaxy.model.migrations.util` (not part of the
excerpt) are modelled from the spec with standard Alembic DDL semantics over
an explicit schema value.
-/

structure TableSpec where
  name : String
  /-- pairs of (column name, column type) in declaration order -/
  columns : List (String × String)
deriving DecidableEq, Repr

structure UniqueConstraintSpec where
  name : String
  table : String
  columns : List String
deriving DecidableEq, Repr

structure IndexSpec where
  name : String
  table : String
  columns : List String
  unique : Bool
deriving DecidableEq, Repr

structure Schema where
  tables : List TableSpec
  uniqueConstraints : List UniqueConstraintSpec
  indexes : List IndexSpec
deriving DecidableEq, Repr

/-- Modelled from the spec: `galaxy.model.migrations.util.add_column`. -/
def add_column (table : String) (c : String × String) (s : Schema) : Schema :=
  { s with tables := s.tables.map (fun t =>
      if t.name = table then { t with columns := t.columns ++ [c] } else t) }

/-- Modelled from the spec: `galaxy.model.migrations.util.drop_column`. -/
def drop_column (table col : String) (s : Schema) : Schema :=
  { s with tables := s.tables.map (fun t =>
      if t.name = table then { t with columns := t.columns.filter (fun c => c.1 != col) } else t) }

/-- Modelled from the spec: `galaxy.model.migrations.util.create_table`. -/
def create_table (t : TableSpec) (s : Schema) : Schema :=
  { s with tables := s.tables ++ [t] }

/-- Modelled from the spec: `galaxy.model.migrations.util.drop_table`. -/
def drop_table (table : String) (s : Schema) : Schema :=
  { s with tables := s.tables.filter (fun t => t.name != table) }

/-- Modelled from the spec: `galaxy.model.migrations.util.add_unique_constraint`. -/
def add_unique_constraint (name table : String) (cols : List String) (s : Schema) : Schema :=
  { s with uniqueConstraints := s.uniqueConstraints ++ [⟨name, table, cols⟩] }

/-- Modelled from the spec: `galaxy.model.migrations.util.drop_unique_constraint`. -/
def drop_unique_constraint (name table : String) (s : Schema) : Schema :=
  { s with uniqueConstraints := s.uniqueConstraints.filter (fun c =>
      !(c.name == name && c.table == table)) }

/-- Modelled from the spec: `galaxy.model.migrations.util.create_index`. -/
def create_index (name table : String) (cols : List String) (uniq : Bool) (s : Schema) : Schema :=
  { s with indexes := s.indexes ++ [⟨name, table, cols, uniq⟩] }

/-- Modelled from the spec: `galaxy.model.migrations.util.drop_index`. -/
def drop_index (name table : String) (s : Schema) : Schema :=
  { s with indexes := s.indexes.filter (fun i => !(i.name == name && i.table == table)) }

/-- The `user_quota_source_usage` table created by the upgrade
(migration lines 36-43). -/
def user_quota_source_usage_table : TableSpec :=
  { name := "user_quota_source_usage",
    columns := [("id", "Integer"), ("user_id", "Integer"),
      ("quota_source_label", "String(32)"), ("disk_usage", "Numeric(15,0)")] }

/-- The unique constraint added by the upgrade (migration line 44). -/
def uqsu_unique_label_per_user : UniqueConstraintSpec :=
  ⟨"uqsu_unique_label_per_user", "user_quota_source_usage",
    ["user_id", "quota_source_label"]⟩

/-- The index on `default_quota_association.type` dropped by the upgrade and
recreated by the downgrade (migration lines 45 and 51). -/
def ix_default_quota_association_type : IndexSpec :=
  ⟨"ix_default_quota_association_type", "default_quota_association", ["type"], true⟩

/-- Embeds `upgrade()` of migration d0583094c8cd (lines 34-46), applied step by
step in source order. -/
def quota_source_labels_upgrade (s : Schema) : Schema :=
  create_index "ix_quota_quota_source_label" "quota" ["quota_source_label"] false
    (drop_index "ix_default_quota_association_type" "default_quota_association"
      (add_unique_constraint "uqsu_unique_label_per_user" "user_quota_source_usage"
          ["user_id", "quota_source_label"]
        (create_table user_quota_source_usage_table
          (add_column "quota" ("quota_source_label", "String(32)") s))))

/-- Embeds `downgrade()` of migration d0583094c8cd (lines 49-54), applied step by
step in source order. -/
def quota_source_labels_downgrade (s : Schema) : Schema :=
  drop_column "quota" "quota_source_label"
    (drop_table "user_quota_source_usage"
      (drop_unique_constraint "uqsu_unique_label_per_user" "user_quota_source_usage"
        (create_index "ix_default_quota_association_type" "default_quota_association"
            ["type"] true
          (drop_index "ix_quota_quota_source_label" "quota" s))))

/-- A row of the `user_quota_source_usage` table. -/
structure UQSURow where
  id : Nat
  user_id : Nat
  quota_source_label : String
  disk_usage : Int
deriving DecidableEq, Repr

/-- The unique constraint `uqsu_unique_label_per_user` rejects a new row
that repeats an existing row's (user_id, quota_source_label) pair. -/
def violatesUQSU (rows : List UQSURow) (r : UQSURow) : Bool :=
  rows.any (fun x => x.user_id == r.user_id && x.quota_source_label == r.quota_source_label)

/-- Table states reachable after the upgrade: starting empty, rows enter the
table only through inserts the unique constraint admits. -/
inductive ReachableUQSU : List UQSURow → Prop
  | nil : ReachableUQSU []
  | insert (rows : List UQSURow) (r : UQSURow) : ReachableUQSU rows →
      violatesUQSU rows r = false → ReachableUQSU (r :: rows)

/-! ## Chat API

Embedded from `src/lib/galaxy/webapps/galaxy/api/chat.py`.  A stored chat
response holds its first message directly (job-based exchanges have exactly
one message and the first-message object of an existing response is always
truthy).  `openaiAnswer` stands for the answer OpenAI would return for the
request's messages; `calledOpenAI` records whether the OpenAI service was
invoked.
-/

structure ChatState where
  /-- persisted chat responses: (job id, first message) -/
  stored : List (Nat × String)
  /-- whether the `openai` package imported successfully -/
  openaiInstalled : Bool
  /-- the value of config.openai_api_key -/
  openaiApiKey : Option String
  /-- the answer OpenAI produces for this query's messages -/
  openaiAnswer : String
deriving DecidableEq, Repr

inductive ChatError where
  | configurationError
deriving DecidableEq, Repr

structure ChatOutcome where
  answer : String
  state : ChatState
  calledOpenAI : Bool
deriving DecidableEq, Repr

/-- Python truthiness of the `job_id` parameter. -/
def jobIdTruthy : Option Nat → Bool
  | some j => j != 0
  | none => false

/-- Embeds `ChatAPI._ensure_openai_configured` (chat.py lines 81-87): raises
`ConfigurationError` when the openai package is missing or no API key is
configured. -/
def ensure_openai_configured (st : ChatState) : Except ChatError Unit :=
  if !st.openaiInstalled then .error .configurationError
  else if st.openaiApiKey.isNone then .error .configurationError
  else .ok ()

/-- Embeds `ChatAPI.query` (chat.py lines 40-68): with a truthy `job_id` whose
stored response exists, returns its first message without touching OpenAI
or its configuration; otherwise checks the OpenAI configuration, calls
OpenAI, and persists the answer under `job_id` when `job_id` is truthy. -/
def chat_query (st : ChatState) (job_id : Option Nat) : Except ChatError ChatOutcome :=
  match (if jobIdTruthy job_id then
      job_id.bind (fun j => st.stored.find? (fun e => e.1 == j))
    else none) with
  | some e => .ok { answer := e.2, state := st, calledOpenAI := false }
  | none =>
    match ensure_openai_configured st with
    | .error e => .error e
    | .ok _ =>
      let answer := st.openaiAnswer
      if jobIdTruthy job_id then
        .ok { answer := answer,
              state := { st with stored := (job_id.getD 0, answer) :: st.stored },
              calledOpenAI := true }
      else
        .ok { answer := answer, state := st, calledOpenAI := true }

/-! ## Concrete fixtures

Small concrete values used by witnesses and counterexamples: a database
with one user (id 1) whose private role has id 10, one ordinary role
(id 20) and one group (id 30). -/

def rbacExample : RBACState :=
  { userIds := [1], groupIds := [30], roleIds := [10, 20], privateRoleIds := [10],
    userRoles := [(1, 10)], userGroups := [], groupRoles := [] }

/-- A fresh database vault configured with primary key k1 and no rotated keys. -/
def vaultExample : DatabaseVault :=
  { primaryKey := "k1", rotatedKeys := [], store := [] }

/-- An owned, importable visualization with one revision. -/
def visExample : Visualization :=
  { id := 1, userId := 7, title := "t", deleted := false, importable := true,
    latest_revision := ⟨5, "t", "hg19", [("k", "v")]⟩,
    revisions := [⟨5, "t", "hg19", [("k", "v")]⟩] }

def nonImportableVisExample : Visualization :=
  { visExample with id := 2, importable := false }

def deletedVisExample : Visualization :=
  { visExample with id := 3, deleted := true }

def visDb : List Visualization :=
  [visExample, nonImportableVisExample, deletedVisExample]

def payloadTitleChange : VisualizationUpdatePayload :=
  { title := some "new title", dbkey := none, config := none, deleted := none }

def payloadEmpty : VisualizationUpdatePayload :=
  { title := none, dbkey := none, config := none, deleted := none }

/-- A schema as it stands just before the quota-source-labels migration. -/
def priorSchema : Schema :=
  { tables := [⟨"quota", [("id", "Integer")]⟩,
      ⟨"default_quota_association", [("id", "Integer"), ("type", "String(40)")]⟩],
    uniqueConstraints := [],
    indexes := [ix_default_quota_association_type] }

/-- A chat state with one stored response for job 4 and OpenAI unconfigured. -/
def chatExample : ChatState :=
  { stored := [(4, "stored answer")], openaiInstalled := false,
    openaiApiKey := none, openaiAnswer := "fresh answer" }

/-- A chat state with no stored responses and OpenAI configured. -/
def chatConfiguredExample : ChatState :=
  { stored := [], openaiInstalled := true,
    openaiApiKey := some "sk", openaiAnswer := "fresh answer" }

/-! ## Theorems -/

theorem postState_ok (s s2 : RBACState) : postState s (.ok s2) = s2 := rfl

theorem postState_error (s : RBACState) (e : RBACError) : postState s (.error e) = s := rfl

theorem distinctIds_eq_true_iff (l : List Nat) : distinctIds l = true ↔ l.Nodup := by
  induction l with
  | nil => simp [distinctIds]
  | cons x xs ih => simp [distinctIds, ih, List.nodup_cons, List.contains]

theorem validIdList_eq_true_iff (ex l : List Nat) :
    validIdList ex l = true ↔ (∀ i ∈ l, i ∈ ex) ∧ l.Nodup := by
  simp [validIdList, distinctIds_eq_true_iff, List.contains]

/-- C1: for every user holding a PRIVATE role association, both bulk
association-replacement calls (`set_user_group_and_role_associations` on the
user with any id lists, and `set_role_user_and_group_associations` on the
private role) leave the user's association with the private role in place.
Preservation keys on the role's PRIVATE type alone — the user's email never
enters the computation — so it also holds when the email no longer equals
the private role's name. -/
theorem private_role_assoc_preserved (s : RBACState) (u pr : Nat)
    (hpriv : pr ∈ s.privateRoleIds) (hassoc : (u, pr) ∈ s.userRoles) :
    (∀ gids rids, (u, pr) ∈
      (postState s (set_user_group_and_role_associations s u gids rids)).userRoles) ∧
    (∀ uids gids, (u, pr) ∈
      (postState s (set_role_user_and_group_associations s pr uids gids)).userRoles) := by
  constructor
  · intro gids rids
    unfold set_user_group_and_role_associations
    split
    · simp only [postState_ok, List.mem_append, List.mem_filter]
      exact Or.inl ⟨hassoc, by simp [List.contains, hpriv]⟩
    · rw [postState_error]; exact hassoc
  · intro uids gids
    unfold set_role_user_and_group_associations
    split
    · simp only [postState_ok, List.mem_append, List.mem_filter]
      exact Or.inl ⟨hassoc, by simp [List.contains, hpriv]⟩
    · rw [postState_error]; exact hassoc

/-- Witness for C1 at the concrete fixture. -/
theorem private_role_assoc_preserved_witness :
    (1, 10) ∈ (postState rbacExample
      (set_user_group_and_role_associations rbacExample 1 [30] [20])).userRoles ∧
    (1, 10) ∈ (postState rbacExample
      (set_role_user_and_group_associations rbacExample 10 [] [])).userRoles :=
  ⟨(private_role_assoc_preserved rbacExample 1 10 (by decide) (by decide)).1 [30] [20],
   (private_role_assoc_preserved rbacExample 1 10 (by decide) (by decide)).2 [] []⟩

/-- C2: an id that does not identify an existing entity, or an id appearing
twice in either list, makes each of the three setters raise
`RequestParameterInvalidException`, and the database state after the call is
exactly the state before it — no association added or dropped. -/
theorem invalid_or_duplicate_ids_rejected (s : RBACState) :
    (∀ u gids rids,
      ((∃ i ∈ gids, i ∉ s.groupIds) ∨ ¬ gids.Nodup ∨
       (∃ i ∈ rids, i ∉ s.roleIds) ∨ ¬ rids.Nodup) →
      set_user_group_and_role_associations s u gids rids = .error .requestParameterInvalid ∧
      postState s (set_user_group_and_role_associations s u gids rids) = s) ∧
    (∀ r uids gids,
      ((∃ i ∈ uids, i ∉ s.userIds) ∨ ¬ uids.Nodup ∨
       (∃ i ∈ gids, i ∉ s.groupIds) ∨ ¬ gids.Nodup) →
      set_role_user_and_group_associations s r uids gids = .error .requestParameterInvalid ∧
      postState s (set_role_user_and_group_associations s r uids gids) = s) ∧
    (∀ g uids rids,
      ((∃ i ∈ uids, i ∉ s.userIds) ∨ ¬ uids.Nodup ∨
       (∃ i ∈ rids, i ∉ s.roleIds) ∨ ¬ rids.Nodup) →
      set_group_user_and_role_associations s g uids rids = .error .requestParameterInvalid ∧
      postState s (set_group_user_and_role_associations s g uids rids) = s) := by
  refine ⟨?_, ?_, ?_⟩ <;> intro a l1 l2 h <;>
    [ (unfold set_user_group_and_role_associations);
      (unfold set_role_user_and_group_associations);
      (unfold set_group_user_and_role_associations) ] <;>
    rw [if_neg] <;>
    first
      | exact ⟨rfl, rfl⟩
      | · intro hcond
          rw [Bool.and_eq_true, validIdList_eq_true_iff, validIdList_eq_true_iff] at hcond
          rcases h with h | h | h | h
          · obtain ⟨i, hi, hni⟩ := h; exact hni (hcond.1.1 i hi)
          · exact h hcond.1.2
          · obtain ⟨i, hi, hni⟩ := h; exact hni (hcond.2.1 i hi)
          · exact h hcond.2.2

/-- Witness for C2 at the concrete fixture: id 99 exists in no table. -/
theorem invalid_or_duplicate_ids_rejected_witness :
    set_user_group_and_role_associations rbacExample 1 [99] [] =
      .error .requestParameterInvalid ∧
    set_role_user_and_group_associations rbacExample 10 [1, 1] [] =
      .error .requestParameterInvalid ∧
    set_group_user_and_role_associations rbacExample 30 [] [99] =
      .error .requestParameterInvalid :=
  ⟨((invalid_or_duplicate_ids_rejected rbacExample).1 1 [99] []
      (Or.inl ⟨99, by decide, by decide⟩)).1,
   ((invalid_or_duplicate_ids_rejected rbacExample).2.1 10 [1, 1] []
      (Or.inr (Or.inl (by decide)))).1,
   ((invalid_or_duplicate_ids_rejected rbacExample).2.2 30 [] [99]
      (Or.inr (Or.inr (Or.inl ⟨99, by decide, by decide⟩)))).1⟩

/-- C3 (amended): a successful setter call replaces the anchor's two
association sets exactly — afterwards the anchor is associated with
precisely the listed targets, plus, for a user anchor, the user's
preexisting PRIVATE-role associations, and, for a private-role anchor, the
role's preexisting user associations (which the setters never drop). -/
theorem associations_replaced_exactly (s : RBACState) :
    (∀ u gids rids,
      validIdList s.groupIds gids = true → validIdList s.roleIds rids = true →
      (set_user_group_and_role_associations s u gids rids).isOk = true ∧
      (∀ g, (u, g) ∈
          (postState s (set_user_group_and_role_associations s u gids rids)).userGroups ↔
        g ∈ gids) ∧
      (∀ r, (u, r) ∈
          (postState s (set_user_group_and_role_associations s u gids rids)).userRoles ↔
        (r ∈ rids ∨ ((u, r) ∈ s.userRoles ∧ r ∈ s.privateRoleIds)))) ∧
    (∀ rid uids gids,
      validIdList s.userIds uids = true → validIdList s.groupIds gids = true →
      (set_role_user_and_group_associations s rid uids gids).isOk = true ∧
      (∀ u, (u, rid) ∈
          (postState s (set_role_user_and_group_associations s rid uids gids)).userRoles ↔
        (u ∈ uids ∨ ((u, rid) ∈ s.userRoles ∧ rid ∈ s.privateRoleIds))) ∧
      (∀ g, (g, rid) ∈
          (postState s (set_role_user_and_group_associations s rid uids gids)).groupRoles ↔
        g ∈ gids)) ∧
    (∀ gid uids rids,
      validIdList s.userIds uids = true → validIdList s.roleIds rids = true →
      (set_group_user_and_role_associations s gid uids rids).isOk = true ∧
      (∀ u, (u, gid) ∈
          (postState s (set_group_user_and_role_associations s gid uids rids)).userGroups ↔
        u ∈ uids) ∧
      (∀ r, (gid, r) ∈
          (postState s (set_group_user_and_role_associations s gid uids rids)).groupRoles ↔
        r ∈ rids)) := by
  refine ⟨?_, ?_, ?_⟩ <;> intro a l1 l2 h1 h2 <;>
    [ simp only [set_user_group_and_role_associations, h1, h2];
      simp only [set_role_user_and_group_associations, h1, h2];
      simp only [set_group_user_and_role_associations, h1, h2] ] <;>
    simp only [Bool.and_self, if_true, Except.isOk, postState_ok] <;>
    refine ⟨rfl, fun x => ?_, fun y => ?_⟩ <;>
    simp [List.mem_append, List.mem_filter, List.mem_map, List.contains] <;>
    tauto

/-- C3 counterexample: on a private-role anchor the claim as stated fails —
with user 1 holding private role 10, a successful
`set_role_user_and_group_associations` on role 10 with an empty user-id
list leaves the association (1, 10) in place, so afterwards the role's user
association set is [(1, 10)], not the listed (empty) set. -/
theorem associations_replaced_exactly_cex :
    (set_role_user_and_group_associations rbacExample 10 [] []).isOk = true ∧
    (postState rbacExample
      (set_role_user_and_group_associations rbacExample 10 [] [])).userRoles = [(1, 10)] := by
  decide

/-- Witness for C3 at the concrete fixture. -/
theorem associations_replaced_exactly_witness :
    ((1 : Nat), (30 : Nat)) ∈ (postState rbacExample
      (set_user_group_and_role_associations rbacExample 1 [30] [20])).userGroups := by
  obtain ⟨_, hG, _⟩ :=
    (associations_replaced_exactly rbacExample).1 1 [30] [20] (by decide) (by decide)
  exact (hG 30).mpr (by decide)

/-- C4: vault round-trip — `write_secret(k, v)` then `read_secret(k)`
returns `v`, and after a second `write_secret(k, v2)` the read returns the
most recent value `v2`; for the database-backed vault and the
external-service key-value backends alike. -/
theorem vault_write_read_roundtrip (v : DatabaseVault) (w : KVVault) (k val val2 : String) :
    read_secret (write_secret v k val) k = .ok (some val) ∧
    read_secret (write_secret (write_secret v k val) k val2) k = .ok (some val2) ∧
    kv_read_secret (kv_write_secret w k val) k = some val ∧
    kv_read_secret (kv_write_secret (kv_write_secret w k val) k val2) k = some val2 := by
  refine ⟨?_, ?_, ?_, ?_⟩ <;>
    simp [read_secret, write_secret, kv_read_secret, kv_write_secret, List.find?]

/-- C5: over the same stored rows, a secret written under the old primary
key stays readable after reconfiguration exactly when that key is among the
new key set; with the key absent the read raises `InvalidToken`, an error
distinct from the `none` result of reading a path never written. -/
theorem vault_key_rotation (v : DatabaseVault) (path val newPrimary : String)
    (newRotated : List String) :
    (v.primaryKey = newPrimary ∨ v.primaryKey ∈ newRotated →
      read_secret (reconfigure (write_secret v path val) newPrimary newRotated) path =
        .ok (some val)) ∧
    (¬(v.primaryKey = newPrimary ∨ v.primaryKey ∈ newRotated) →
      read_secret (reconfigure (write_secret v path val) newPrimary newRotated) path =
        .error .invalidToken) ∧
    (∀ q, (∀ e ∈ v.store, e.1 ≠ q) →
      read_secret (reconfigure v newPrimary newRotated) q = .ok none) ∧
    (.error .invalidToken ≠ (.ok none : Except VaultError (Option String))) := by
  refine ⟨?_, ?_, ?_, by simp⟩
  · intro h
    simp [read_secret, reconfigure, write_secret, List.find?, h]
  · intro h
    simp [read_secret, reconfigure, write_secret, List.find?, h]
  · intro q hq
    have hnone : v.store.find? (fun e => e.1 == q) = none := by
      rw [List.find?_eq_none]
      intro x hx
      simp [hq x hx]
    simp [read_secret, reconfigure, hnone]

/-- Witness for C5: key k1 rotated out but retained keeps the secret
readable; a key set without k1 raises InvalidToken; a never-written path
reads as none. -/
theorem vault_key_rotation_witness :
    read_secret (reconfigure (write_secret vaultExample "my/rotated/secret" "hello rotated")
      "k2" ["k1"]) "my/rotated/secret" = .ok (some "hello rotated") ∧
    read_secret (reconfigure (write_secret vaultExample "my/incorrect/secret" "hello incorrect")
      "k3" []) "my/incorrect/secret" = .error .invalidToken ∧
    read_secret (reconfigure vaultExample "k2" ["k1"]) "never/written" = .ok none :=
  ⟨(vault_key_rotation vaultExample "my/rotated/secret" "hello rotated" "k2" ["k1"]).1
      (by simp [vaultExample]),
   (vault_key_rotation vaultExample "my/incorrect/secret" "hello incorrect" "k3" []).2.1
      (by simp [vaultExample]),
   (vault_key_rotation vaultExample "" "" "k2" ["k1"]).2.2.1 "never/written"
      (by simp [vaultExample])⟩

/-- C6: `update` creates a new revision — appended to `revisions`, pointed
to by `latest_revision`, its id returned — exactly when the effective
title, dbkey or config differs from the latest revision's; when none of the
three differ it creates no revision and returns none. -/
theorem update_creates_revision_iff_changed (vis : Visualization)
    (payload : VisualizationUpdatePayload) (newRevId : Nat) :
    ((update vis payload newRevId).2 ≠ none ↔ revisionNeeded vis payload) ∧
    (revisionNeeded vis payload →
      (update vis payload newRevId).2 = some (vis.id, newRevId) ∧
      (update vis payload newRevId).1.latest_revision =
        ⟨newRevId, orFalsyStr payload.title vis.latest_revision.title,
          orFalsyStr payload.dbkey vis.latest_revision.dbkey,
          orFalsyConfig payload.config vis.latest_revision.config⟩ ∧
      (update vis payload newRevId).1.revisions =
        vis.revisions ++ [(update vis payload newRevId).1.latest_revision]) ∧
    (¬ revisionNeeded vis payload →
      (update vis payload newRevId).2 = none ∧
      (update vis payload newRevId).1.revisions = vis.revisions ∧
      (update vis payload newRevId).1.latest_revision = vis.latest_revision) := by
  unfold revisionNeeded
  by_cases h : orFalsyStr payload.title vis.latest_revision.title ≠ vis.latest_revision.title
      ∨ orFalsyStr payload.dbkey vis.latest_revision.dbkey ≠ vis.latest_revision.dbkey
      ∨ orFalsyConfig payload.config vis.latest_revision.config ≠ vis.latest_revision.config
  · refine ⟨by simp [update, h], fun _ => ?_, fun hn => absurd h hn⟩
    simp [update, h]
  · refine ⟨by simp [update, h], fun hp => absurd hp h, fun _ => ?_⟩
    simp [update, h]

/-- Witness for C6: a changed title creates a revision; an all-absent
payload does not. -/
theorem update_creates_revision_iff_changed_witness :
    (update visExample payloadTitleChange 6).2 = some (1, 6) ∧
    (update visExample payloadEmpty 6).2 = none :=
  ⟨((update_creates_revision_iff_changed visExample payloadTitleChange 6).2.1
      (by decide)).1,
   ((update_creates_revision_iff_changed visExample payloadEmpty 6).2.2
      (by decide)).1⟩

/-- C9: `update` treats falsy payload fields as absent — an empty-string
title or dbkey, an empty config dict and an explicit false deleted flag act
exactly like omitted fields — so a deleted visualization stays deleted
through every update call and an empty string never overwrites the stored
title or dbkey. -/
theorem update_falsy_fields_ignored (vis : Visualization)
    (payload : VisualizationUpdatePayload) (newRevId : Nat) :
    (vis.deleted = true → (update vis payload newRevId).1.deleted = true) ∧
    update vis { payload with title := some "" } newRevId =
      update vis { payload with title := none } newRevId ∧
    update vis { payload with dbkey := some "" } newRevId =
      update vis { payload with dbkey := none } newRevId ∧
    update vis { payload with config := some [] } newRevId =
      update vis { payload with config := none } newRevId ∧
    update vis { payload with deleted := some false } newRevId =
      update vis { payload with deleted := none } newRevId := by
  refine ⟨fun h => ?_, ?_, ?_, ?_, ?_⟩
  · simp only [update]
    split <;> simp [h]
  all_goals simp [update, orFalsyStr, orFalsyConfig]

/-- Witness for C9: updating a deleted visualization leaves it deleted. -/
theorem update_falsy_fields_ignored_witness :
    (update deletedVisExample payloadEmpty 6).1.deleted = true :=
  (update_falsy_fields_ignored deletedVisExample payloadEmpty 6).1 (by decide)

/-- C8: visualization lookup and import fail with the typed exceptions —
`ObjectNotFound` when no visualization has the id, `ItemAccessibility` for
an anonymous caller or a non-importable visualization, `ItemDeletion` for a
deleted one — and a copy enters the database only on success, appended as
the returned imported visualization. -/
theorem visualization_import_and_lookup_errors (db : List Visualization)
    (user : Option Nat) (vid newId : Nat) :
    ((∀ v ∈ db, v.id ≠ vid) → get_visualization db vid = .error .objectNotFound) ∧
    (user = none → import_visualization db user vid newId = .error .itemAccessibility) ∧
    (∀ u vis, user = some u → get_visualization db vid = .ok vis →
      vis.importable = false →
      import_visualization db user vid newId = .error .itemAccessibility) ∧
    (∀ u vis, user = some u → get_visualization db vid = .ok vis →
      vis.importable = true → vis.deleted = true →
      import_visualization db user vid newId = .error .itemDeletion) ∧
    (∀ db2 c, import_visualization db user vid newId = .ok (db2, c) →
      db2 = db ++ [c]) := by
  refine ⟨?_, ?_, ?_, ?_, ?_⟩
  · intro hnone
    have : db.find? (fun v => v.id == vid) = none := by
      rw [List.find?_eq_none]
      intro v hv
      simp [hnone v hv]
    simp [get_visualization, this]
  · intro h
    simp [import_visualization, h]
  · intro u vis hu hv himp
    simp [import_visualization, hu, hv, himp]
  · intro u vis hu hv himp hdel
    simp [import_visualization, hu, hv, himp, hdel]
  · intro db2 c h
    unfold import_visualization at h
    cases user with
    | none => simp at h
    | some u =>
      cases hg : get_visualization db vid with
      | error e => rw [hg] at h; simp at h
      | ok vis =>
        rw [hg] at h
        cases himp : vis.importable with
        | false => simp [himp] at h
        | true =>
          cases hdel : vis.deleted with
          | true => simp [himp, hdel] at h
          | false =>
            simp [himp, hdel] at h
            obtain ⟨h1, h2⟩ := h
            subst h1
            subst h2
            rfl

/-- Witness for C8 on the concrete database. -/
theorem visualization_import_and_lookup_errors_witness :
    get_visualization visDb 99 = .error .objectNotFound ∧
    import_visualization visDb none 1 50 = .error .itemAccessibility ∧
    import_visualization visDb (some 7) 2 50 = .error .itemAccessibility ∧
    import_visualization visDb (some 7) 3 50 = .error .itemDeletion := by
  refine ⟨?_, ?_, ?_, ?_⟩
  · exact (visualization_import_and_lookup_errors visDb none 99 50).1 (by decide)
  · exact (visualization_import_and_lookup_errors visDb none 1 50).2.1 rfl
  · exact (visualization_import_and_lookup_errors visDb (some 7) 2 50).2.2.1
      7 nonImportableVisExample rfl rfl (by decide)
  · exact (visualization_import_and_lookup_errors visDb (some 7) 3 50).2.2.2.1
      7 deletedVisExample rfl rfl (by decide) (by decide)

/-- C10: with a truthy job id whose stored response exists, `query` returns
the stored first message with no OpenAI call, no configuration check and no
new message — whatever the OpenAI configuration; with no stored response it
requires OpenAI installed and configured, raising `ConfigurationError`
otherwise, calls OpenAI and persists the answer under the job id. -/
theorem chat_query_stored_short_circuit (st : ChatState) (j : Nat) :
    (∀ e, j ≠ 0 → st.stored.find? (fun x => x.1 == j) = some e →
      chat_query st (some j) = .ok { answer := e.2, state := st, calledOpenAI := false }) ∧
    (st.stored.find? (fun x => x.1 == j) = none → j ≠ 0 →
      ((st.openaiInstalled = false ∨ st.openaiApiKey = none) →
        chat_query st (some j) = .error .configurationError) ∧
      (∀ key, st.openaiInstalled = true → st.openaiApiKey = some key →
        chat_query st (some j) =
          .ok ⟨st.openaiAnswer, { st with stored := (j, st.openaiAnswer) :: st.stored },
            true⟩)) := by
  constructor
  · intro e hj hfind
    simp [chat_query, jobIdTruthy, hj, hfind]
  · intro hfind hj
    constructor
    · intro hcfg
      rcases hcfg with hcfg | hcfg <;>
        simp [chat_query, jobIdTruthy, hj, hfind, ensure_openai_configured, hcfg]
    · intro key hinst hkey
      simp [chat_query, jobIdTruthy, hj, hfind, ensure_openai_configured, hinst, hkey]

/-- Witness for C10: job 4 has a stored response, so the unconfigured state
is returned untouched; with no stored response and OpenAI configured, a
fresh answer is produced and persisted. -/
theorem chat_query_stored_short_circuit_witness :
    chat_query chatExample (some 4) =
      .ok { answer := "stored answer", state := chatExample, calledOpenAI := false } ∧
    chat_query chatExample (some 9) = .error .configurationError ∧
    chat_query chatConfiguredExample (some 9) =
      .ok ⟨"fresh answer", { chatConfiguredExample with stored := [(9, "fresh answer")] },
        true⟩ :=
  ⟨(chat_query_stored_short_circuit chatExample 4).1 (4, "stored answer")
      (by decide) (by decide),
   ((chat_query_stored_short_circuit chatExample 9).2 (by decide) (by decide)).1
      (Or.inl (by decide)),
   ((chat_query_stored_short_circuit chatConfiguredExample 9).2 (by decide) (by decide)).2
      "sk" (by decide) (by decide)⟩

theorem quota_tables_roundtrip (l : List TableSpec)
    (h : ∀ t ∈ l, ∀ c ∈ t.columns, c.1 ≠ "quota_source_label") :
    ((l.map (fun t => if t.name = "quota" then
        { t with columns := t.columns ++ [("quota_source_label", "String(32)")] } else t)).map
      (fun t => if t.name = "quota" then
        { t with columns := t.columns.filter (fun c => c.1 != "quota_source_label") } else t)) =
    l := by
  induction l with
  | nil => rfl
  | cons t l ih =>
    simp only [List.map_cons]
    rw [ih (fun t2 ht2 => h t2 (List.mem_cons_of_mem _ ht2))]
    have hc := h t (List.mem_cons_self t l)
    have hall : t.columns.filter (fun c => c.1 != "quota_source_label") = t.columns :=
      List.filter_eq_self.mpr (fun c hcm => by simp [hc c hcm])
    obtain ⟨tname, tcols⟩ := t
    by_cases hq : tname = "quota"
    · subst hq
      simp only [List.cons.injEq, and_true]
      simp [List.filter_append, hall]
    · simp only [List.cons.injEq, and_true]
      simp [hq]

/-- C7: the upgrade adds the `uqsu_unique_label_per_user` constraint to the
schema, under which every reachable `user_quota_source_usage` table state
holds at most one row per (user_id, quota_source_label) pair; the downgrade
removes the table, its constraint and the `quota.quota_source_label`
column, restoring the prior schema (tables and constraints exactly, indexes
up to the position of the recreated `default_quota_association` index). -/
theorem quota_source_labels_migration_correct (s : Schema) :
    uqsu_unique_label_per_user ∈ (quota_source_labels_upgrade s).uniqueConstraints ∧
    (∀ rows, ReachableUQSU rows → rows.Pairwise (fun a b =>
      a.user_id ≠ b.user_id ∨ a.quota_source_label ≠ b.quota_source_label)) ∧
    ((∀ t ∈ s.tables, t.name ≠ "user_quota_source_usage" ∧
        ∀ c ∈ t.columns, c.1 ≠ "quota_source_label") →
     (∀ c ∈ s.uniqueConstraints,
        ¬(c.name = "uqsu_unique_label_per_user" ∧ c.table = "user_quota_source_usage")) →
     ix_default_quota_association_type ∈ s.indexes →
     (∀ i ∈ s.indexes, i.name = "ix_default_quota_association_type" →
        i.table = "default_quota_association" → i = ix_default_quota_association_type) →
     (∀ i ∈ s.indexes, ¬(i.name = "ix_quota_quota_source_label" ∧ i.table = "quota")) →
     (quota_source_labels_downgrade (quota_source_labels_upgrade s)).tables = s.tables ∧
     (quota_source_labels_downgrade (quota_source_labels_upgrade s)).uniqueConstraints =
       s.uniqueConstraints ∧
     ∀ i, (i ∈ (quota_source_labels_downgrade (quota_source_labels_upgrade s)).indexes ↔
       i ∈ s.indexes)) := by
  refine ⟨?_, ?_, ?_⟩
  · simp [quota_source_labels_upgrade, create_index, drop_index, add_unique_constraint,
      create_table, add_column, uqsu_unique_label_per_user]
  · intro rows h
    induction h with
    | nil => exact List.Pairwise.nil
    | insert rows r hr hv ih =>
      refine List.pairwise_cons.mpr ⟨?_, ih⟩
      intro b hb
      rw [violatesUQSU, List.any_eq_false] at hv
      have := hv b hb
      simp only [Bool.and_eq_true, beq_iff_eq, not_and] at this
      by_cases hu : r.user_id = b.user_id
      · right
        intro hl
        exact this (by rw [hu]) (by rw [hl])
      · left
        exact hu
  · intro htab hcon hixmem hixuniq hnoq
    simp only [quota_source_labels_upgrade, quota_source_labels_downgrade, add_column,
      drop_column, create_table, drop_table, add_unique_constraint, drop_unique_constraint,
      create_index, drop_index, ix_default_quota_association_type,
      user_quota_source_usage_table, uqsu_unique_label_per_user]
    refine ⟨?_, ?_, ?_⟩
    · rw [List.filter_append]
      have h1 : List.filter (fun t : TableSpec => t.name != "user_quota_source_usage")
          [{ name := "user_quota_source_usage",
             columns := [("id", "Integer"), ("user_id", "Integer"),
               ("quota_source_label", "String(32)"), ("disk_usage", "Numeric(15,0)")] }] = [] := rfl
      rw [h1, List.append_nil]
      rw [List.filter_eq_self.mpr ?keep]
      case keep =>
        intro t ht
        obtain ⟨t0, ht0, rfl⟩ := List.mem_map.mp ht
        have hn := (htab t0 ht0).1
        by_cases hq : t0.name = "quota" <;> simp [hq, hn]
      exact quota_tables_roundtrip s.tables (fun t ht => (htab t ht).2)
    · rw [List.filter_append]
      have h3 : List.filter (fun c : UniqueConstraintSpec =>
          !(c.name == "uqsu_unique_label_per_user" && c.table == "user_quota_source_usage"))
          [{ name := "uqsu_unique_label_per_user", table := "user_quota_source_usage",
             columns := ["user_id", "quota_source_label"] }] = [] := rfl
      rw [h3, List.append_nil, List.filter_eq_self.mpr ?noc]
      case noc =>
        intro c hcm
        have hcnot := hcon c hcm
        simp only [not_and] at hcnot
        by_cases hn : c.name = "uqsu_unique_label_per_user"
        · simp [hn, hcnot hn]
        · simp [hn]
    · intro i
      rw [List.filter_append]
      have h4 : List.filter (fun i : IndexSpec =>
          !(i.name == "ix_quota_quota_source_label" && i.table == "quota"))
          [{ name := "ix_quota_quota_source_label", table := "quota",
             columns := ["quota_source_label"], unique := false }] = [] := rfl
      rw [h4, List.append_nil]
      rw [List.filter_eq_self.mpr ?noq2]
      case noq2 =>
        intro j hj
        have hj2 := List.mem_of_mem_filter hj
        have := hnoq j hj2
        simp only [not_and] at this
        by_cases hn : j.name = "ix_quota_quota_source_label"
        · simp [hn, this hn]
        · simp [hn]
      simp only [List.mem_append, List.mem_filter, List.mem_singleton]
      constructor
      · rintro (⟨hm, _⟩ | rfl)
        · exact hm
        · exact hixmem
      · intro hm
        by_cases hd : i.name = "ix_default_quota_association_type" ∧
            i.table = "default_quota_association"
        · right
          exact hixuniq i hm hd.1 hd.2
        · left
          refine ⟨hm, ?_⟩
          simp only [not_and] at hd
          by_cases hn : i.name = "ix_default_quota_association_type"
          · simp [hn, hd hn]
          · simp [hn]

/-- Witness for C7 at the concrete prior schema. -/
theorem quota_source_labels_migration_correct_witness :
    (quota_source_labels_downgrade (quota_source_labels_upgrade priorSchema)).tables =
      priorSchema.tables ∧
    uqsu_unique_label_per_user ∈ (quota_source_labels_upgrade priorSchema).uniqueConstraints :=
  ⟨((quota_source_labels_migration_correct priorSchema).2.2 (by decide) (by decide)
      (by decide) (by decide) (by decide)).1,
   (quota_source_labels_migration_correct priorSchema).1⟩

end GalaxySpec
